import Mathlib

set_option linter.all false

/-! Shallow embedding of the CEF off-screen-rendering plugin core:
the frame buffer with dirty tracking and the browser instance
(renderer.rs), the browser manager registry (manager.rs), and
dirty-rectangle merging (transfer.rs).  Machine integers u32 and i32
are modelled as Nat and Int; byte buffers as List Nat. -/

/-- CefBounds from lib.rs: `{x, y, width, height}`, all i32. -/
structure CefBounds where
  x : Int
  y : Int
  width : Int
  height : Int
  deriving DecidableEq, Repr

/-- BrowserInfo from lib.rs. -/
structure BrowserInfo where
  id : String
  url : String
  bounds : CefBounds
  isLoading : Bool
  deriving DecidableEq, Repr

/-- FrameData from lib.rs. -/
structure FrameData where
  browserId : String
  width : Nat
  height : Nat
  format : String
  data : List Nat
  deriving DecidableEq, Repr

/-- MouseEvent from lib.rs (deltas are f32; they are never computed on). -/
structure MouseEvent where
  x : Int
  y : Int
  button : Int
  eventType : String
  deltaX : Float
  deltaY : Float
  modifiers : Nat

/-- KeyEvent from lib.rs. -/
structure KeyEvent where
  keyCode : Int
  charCode : Nat
  eventType : String
  modifiers : Nat

/-- The two error shapes produced by manager.rs:
`format!("Browser '{}' already exists", id)` and
`format!("Browser '{}' not found", id)`. -/
inductive BrowserError where
  | alreadyExists (id : String)
  | notFound (id : String)
  deriving DecidableEq, Repr

/-- FrameBuffer from renderer.rs: pixel storage plus dirty flag. -/
structure FrameBuffer where
  data : List Nat
  width : Nat
  height : Nat
  dirty : Bool
  deriving DecidableEq, Repr

/-- `FrameBuffer::new`: `vec![0u8; (width*height*4) as usize]`, dirty = false. -/
def FrameBuffer.new (width height : Nat) : FrameBuffer :=
  { data := List.replicate (width * height * 4) 0
    width := width
    height := height
    dirty := false }

/-- `FrameBuffer::resize`: `self.data.resize(size, 0)` keeps the existing
prefix and pads with zeros (or truncates), then records the new
dimensions and sets dirty. -/
def FrameBuffer.resize (fb : FrameBuffer) (width height : Nat) : FrameBuffer :=
  let size := width * height * 4
  { data := fb.data.take size ++ List.replicate (size - fb.data.length) 0
    width := width
    height := height
    dirty := true }

/-- `FrameBuffer::update`: resize first when the declared dimensions differ
from the current ones; then copy `size` bytes and set dirty only when the
supplied buffer holds at least `size` bytes. -/
def FrameBuffer.update (fb : FrameBuffer) (buffer : List Nat) (width height : Nat) :
    FrameBuffer :=
  let fb1 := if fb.width ≠ width ∨ fb.height ≠ height then fb.resize width height else fb
  let size := width * height * 4
  if size ≤ buffer.length then
    { fb1 with data := buffer.take size ++ fb1.data.drop size, dirty := true }
  else fb1

/-- `FrameBuffer::take_if_dirty`: hand out a copy of the pixels and clear
the dirty flag, or nothing when not dirty. -/
def FrameBuffer.takeIfDirty (fb : FrameBuffer) : Option (List Nat × Nat × Nat) × FrameBuffer :=
  if fb.dirty then
    (some (fb.data, fb.width, fb.height), { fb with dirty := false })
  else
    (none, fb)

/-- OsrBrowserInstance from renderer.rs. -/
structure OsrBrowserInstance where
  id : String
  url : String
  bounds : CefBounds
  frameBuffer : FrameBuffer
  isLoading : Bool
  isFocused : Bool
  deriving DecidableEq, Repr

/-- The gradient fill loop of `generate_placeholder_frame`: for each pixel,
when `idx + 3 < data.len()`, write BGRA bytes
`(x*255/width, y*255/height, 100, 255)` in place. -/
def fillGradient (width height : Nat) (data : List Nat) : List Nat :=
  (List.range height).foldl (fun d y =>
    (List.range width).foldl (fun d x =>
      let idx := (y * width + x) * 4
      if idx + 3 < d.length then
        ((((d.set idx (x * 255 / width)).set (idx + 1) (y * 255 / height)).set
            (idx + 2) 100).set (idx + 3) 255)
      else d) d) data

/-- `OsrBrowserInstance::generate_placeholder_frame`: re-clamp the stored
bounds, resize the buffer, fill the gradient, set dirty. -/
def OsrBrowserInstance.generatePlaceholderFrame (inst : OsrBrowserInstance) :
    OsrBrowserInstance :=
  let width := (max inst.bounds.width 100).toNat
  let height := (max inst.bounds.height 100).toNat
  let fb := inst.frameBuffer.resize width height
  { inst with
      frameBuffer := { fb with data := fillGradient width height fb.data, dirty := true } }

/-- `OsrBrowserInstance::new`: clamp width/height to a 100 minimum for the
buffer, store the caller's bounds unmodified, mark loading, unfocused,
then generate the placeholder frame.  Always returns Ok. -/
def OsrBrowserInstance.new (id url : String) (bounds : CefBounds) :
    Except BrowserError OsrBrowserInstance :=
  let width := (max bounds.width 100).toNat
  let height := (max bounds.height 100).toNat
  let inst : OsrBrowserInstance :=
    { id := id
      url := url
      bounds := bounds
      frameBuffer := FrameBuffer.new width height
      isLoading := true
      isFocused := false }
  Except.ok inst.generatePlaceholderFrame

/-- `OsrBrowserInstance::close`: logs and returns Ok. -/
def OsrBrowserInstance.close (_inst : OsrBrowserInstance) : Except BrowserError Unit :=
  Except.ok ()

/-- `OsrBrowserInstance::update_bounds`: clamp, store the caller's bounds
unmodified, resize the frame buffer to the clamped size, regenerate the
placeholder frame.  Always returns Ok. -/
def OsrBrowserInstance.updateBounds (inst : OsrBrowserInstance) (bounds : CefBounds) :
    Except BrowserError OsrBrowserInstance :=
  let width := (max bounds.width 100).toNat
  let height := (max bounds.height 100).toNat
  let inst1 := { inst with bounds := bounds, frameBuffer := inst.frameBuffer.resize width height }
  Except.ok inst1.generatePlaceholderFrame

/-- `OsrBrowserInstance::navigate`: forwards intent only, returns Ok. -/
def OsrBrowserInstance.navigate (_inst : OsrBrowserInstance) (_url : String) :
    Except BrowserError Unit :=
  Except.ok ()

/-- `OsrBrowserInstance::get_frame`: wrap `take_if_dirty` into FrameData. -/
def OsrBrowserInstance.getFrame (inst : OsrBrowserInstance) :
    Option FrameData × OsrBrowserInstance :=
  match inst.frameBuffer.takeIfDirty with
  | (some (data, width, height), fb) =>
      (some { browserId := inst.id
              width := width
              height := height
              format := "BGRA8"
              data := data },
       { inst with frameBuffer := fb })
  | (none, fb) => (none, { inst with frameBuffer := fb })

/-- `OsrBrowserInstance::send_mouse_event`: logs and returns Ok. -/
def OsrBrowserInstance.sendMouseEvent (_inst : OsrBrowserInstance) (_event : MouseEvent) :
    Except BrowserError Unit :=
  Except.ok ()

/-- `OsrBrowserInstance::send_key_event`: logs and returns Ok. -/
def OsrBrowserInstance.sendKeyEvent (_inst : OsrBrowserInstance) (_event : KeyEvent) :
    Except BrowserError Unit :=
  Except.ok ()

/-- `OsrBrowserInstance::set_focus`: writes the local focus flag
(the accompanying Result is always Ok). -/
def OsrBrowserInstance.setFocus (inst : OsrBrowserInstance) (focused : Bool) :
    OsrBrowserInstance :=
  { inst with isFocused := focused }

/-- `OsrBrowserInstance::get_info`: point-in-time metadata snapshot. -/
def OsrBrowserInstance.getInfo (inst : OsrBrowserInstance) : BrowserInfo :=
  { id := inst.id, url := inst.url, bounds := inst.bounds, isLoading := inst.isLoading }

/-- The DashMap of manager.rs, as an association list with unique keys. -/
abbrev Registry := List (String × OsrBrowserInstance)

/-- `self.browsers.contains_key(id)`. -/
def containsId (m : Registry) (id : String) : Bool :=
  m.any (fun e => e.1 == id)

/-- `self.browsers.get(id)`. -/
def findInst (m : Registry) (id : String) : Option OsrBrowserInstance :=
  (m.find? (fun e => e.1 == id)).map Prod.snd

/-- In-place mutation of the entry keyed `id` (DashMap `get`/`get_mut`). -/
def updateEntry (m : Registry) (id : String)
    (f : OsrBrowserInstance → OsrBrowserInstance) : Registry :=
  m.map (fun e => if e.1 = id then (e.1, f e.2) else e)

/-- `BrowserManager::create_browser`: reject duplicates, otherwise build
the instance and insert it. -/
def BrowserManager.createBrowser (m : Registry) (id url : String) (bounds : CefBounds) :
    Except BrowserError Unit × Registry :=
  if containsId m id then
    (Except.error (BrowserError.alreadyExists id), m)
  else
    match OsrBrowserInstance.new id url bounds with
    | Except.ok inst => (Except.ok (), m ++ [(id, inst)])
    | Except.error e => (Except.error e, m)

/-- `BrowserManager::close_browser`: remove the entry, then close it;
unknown ids are reported as not found. -/
def BrowserManager.closeBrowser (m : Registry) (id : String) :
    Except BrowserError Unit × Registry :=
  match findInst m id with
  | some inst =>
      let m1 := m.filter (fun e => !(e.1 == id))
      match inst.close with
      | Except.ok _ => (Except.ok (), m1)
      | Except.error e => (Except.error e, m1)
  | none => (Except.error (BrowserError.notFound id), m)

/-- `BrowserManager::update_bounds`. -/
def BrowserManager.updateBounds (m : Registry) (id : String) (bounds : CefBounds) :
    Except BrowserError Unit × Registry :=
  match findInst m id with
  | some inst =>
      match inst.updateBounds bounds with
      | Except.ok inst1 => (Except.ok (), updateEntry m id (fun _ => inst1))
      | Except.error e => (Except.error e, m)
  | none => (Except.error (BrowserError.notFound id), m)

/-- `BrowserManager::navigate`. -/
def BrowserManager.navigate (m : Registry) (id url : String) :
    Except BrowserError Unit × Registry :=
  match findInst m id with
  | some inst =>
      match inst.navigate url with
      | Except.ok _ => (Except.ok (), m)
      | Except.error e => (Except.error e, m)
  | none => (Except.error (BrowserError.notFound id), m)

/-- `BrowserManager::get_frame`. -/
def BrowserManager.getFrame (m : Registry) (id : String) : Option FrameData × Registry :=
  match findInst m id with
  | some inst =>
      let r := inst.getFrame
      (r.1, updateEntry m id (fun _ => r.2))
  | none => (none, m)

/-- `BrowserManager::send_mouse_event`. -/
def BrowserManager.sendMouseEvent (m : Registry) (id : String) (event : MouseEvent) :
    Except BrowserError Unit × Registry :=
  match findInst m id with
  | some inst =>
      match inst.sendMouseEvent event with
      | Except.ok _ => (Except.ok (), m)
      | Except.error e => (Except.error e, m)
  | none => (Except.error (BrowserError.notFound id), m)

/-- `BrowserManager::send_key_event`. -/
def BrowserManager.sendKeyEvent (m : Registry) (id : String) (event : KeyEvent) :
    Except BrowserError Unit × Registry :=
  match findInst m id with
  | some inst =>
      match inst.sendKeyEvent event with
      | Except.ok _ => (Except.ok (), m)
      | Except.error e => (Except.error e, m)
  | none => (Except.error (BrowserError.notFound id), m)

/-- `BrowserManager::focus_browser`: first sweep every entry whose key is
not `id` and clear its focus, then set focus on the target if present. -/
def BrowserManager.focusBrowser (m : Registry) (id : String) :
    Except BrowserError Unit × Registry :=
  let m1 := m.map (fun e => if e.1 = id then e else (e.1, e.2.setFocus false))
  match findInst m1 id with
  | some _ => (Except.ok (), updateEntry m1 id (fun i => i.setFocus true))
  | none => (Except.error (BrowserError.notFound id), m1)

/-- `BrowserManager::list_browsers`. -/
def BrowserManager.listBrowsers (m : Registry) : List BrowserInfo :=
  m.map (fun e => e.2.getInfo)

/-- `DirtyRect` from transfer.rs (u32 fields). -/
structure DirtyRect where
  x : Nat
  y : Nat
  width : Nat
  height : Nat
  deriving DecidableEq, Repr

/-- `DirtyRect::full`. -/
def DirtyRect.full (width height : Nat) : DirtyRect :=
  { x := 0, y := 0, width := width, height := height }

/-- `DirtyRect::merge`: bounding-box union of the two spans. -/
def DirtyRect.merge (a other : DirtyRect) : DirtyRect :=
  let x := min a.x other.x
  let y := min a.y other.y
  let right := max (a.x + a.width) (other.x + other.width)
  let bottom := max (a.y + a.height) (other.y + other.height)
  { x := x, y := y, width := right - x, height := bottom - y }

/-- Membership of a point in a dirty rectangle's span. -/
def DirtyRect.containsPoint (r : DirtyRect) (px py : Nat) : Prop :=
  r.x ≤ px ∧ px < r.x + r.width ∧ r.y ≤ py ∧ py < r.y + r.height

instance (r : DirtyRect) (px py : Nat) : Decidable (r.containsPoint px py) := by
  unfold DirtyRect.containsPoint
  exact inferInstance

/-- `c` contains every point of `r`. -/
def coversPointsOf (c r : DirtyRect) : Prop :=
  ∀ px py, r.containsPoint px py → c.containsPoint px py

/-- `r` is the smallest axis-aligned rectangle containing every point of
both `a` and `b`: it covers their points, and every rectangle covering
their points also covers all of `r`. -/
def IsSmallestCover (r a b : DirtyRect) : Prop :=
  coversPointsOf r a ∧ coversPointsOf r b ∧
  ∀ c, coversPointsOf c a → coversPointsOf c b → coversPointsOf c r

/-- A surface-level operation: resize or write (FrameBuffer::update). -/
inductive SurfOp where
  | resize (width height : Nat)
  | write (buffer : List Nat) (width height : Nat)

/-- Apply one surface operation. -/
def applySurfOp (fb : FrameBuffer) : SurfOp → FrameBuffer
  | .resize w h => fb.resize w h
  | .write buf w h => fb.update buf w h

/-- Run a sequence of surface operations. -/
def runSurfOps (fb : FrameBuffer) (ops : List SurfOp) : FrameBuffer :=
  ops.foldl applySurfOp fb

/-- The buffer-size invariant: the byte buffer holds exactly
`width * height * 4` bytes. -/
def bufferSizeInv (fb : FrameBuffer) : Prop :=
  fb.data.length = fb.width * fb.height * 4

instance (fb : FrameBuffer) : Decidable (bufferSizeInv fb) := by
  unfold bufferSizeInv
  exact inferInstance

/-- Run a sequence of `focus(id)` calls against the registry. -/
def runFocusSeq (m : Registry) (ids : List String) : Registry :=
  ids.foldl (fun s i => (BrowserManager.focusBrowser s i).2) m

/-- Number of registry entries whose instance is focused. -/
def countFocused (m : Registry) : Nat :=
  m.countP (fun e => e.2.isFocused)

/-- A registry command referencing an instance id (the operations the
manager exposes besides create). -/
inductive Cmd where
  | updateBounds (id : String) (bounds : CefBounds)
  | navigate (id url : String)
  | sendMouseEvent (id : String) (event : MouseEvent)
  | sendKeyEvent (id : String) (event : KeyEvent)
  | focus (id : String)
  | close (id : String)

/-- The id a command references. -/
def Cmd.target : Cmd → String
  | .updateBounds id _ => id
  | .navigate id _ => id
  | .sendMouseEvent id _ => id
  | .sendKeyEvent id _ => id
  | .focus id => id
  | .close id => id

/-- Dispatch one command to the manager. -/
def stepCmd (m : Registry) : Cmd → Except BrowserError Unit × Registry
  | .updateBounds id b => BrowserManager.updateBounds m id b
  | .navigate id url => BrowserManager.navigate m id url
  | .sendMouseEvent id e => BrowserManager.sendMouseEvent m id e
  | .sendKeyEvent id e => BrowserManager.sendKeyEvent m id e
  | .focus id => BrowserManager.focusBrowser m id
  | .close id => BrowserManager.closeBrowser m id

/-- Run a sequence of commands, keeping only the registry state. -/
def runCmds (m : Registry) (cs : List Cmd) : Registry :=
  cs.foldl (fun s c => (stepCmd s c).2) m

/-- A concrete live instance used in concrete evaluations. -/
def instA : OsrBrowserInstance :=
  { id := "a"
    url := "u"
    bounds := { x := 0, y := 0, width := 100, height := 100 }
    frameBuffer := FrameBuffer.new 100 100
    isLoading := true
    isFocused := false }

/-- A concrete one-entry registry. -/
def regA : Registry := [("a", instA)]

theorem length_resize (fb : FrameBuffer) (w h : Nat) :
    (fb.resize w h).data.length = w * h * 4 := by
  simp only [FrameBuffer.resize, List.length_append, List.length_take, List.length_replicate]
  omega

theorem bufferSizeInv_applySurfOp (fb : FrameBuffer) (op : SurfOp)
    (h : bufferSizeInv fb) : bufferSizeInv (applySurfOp fb op) := by
  cases op with
  | resize w hh =>
      simpa [applySurfOp, bufferSizeInv, FrameBuffer.resize, List.length_take] using
        length_resize fb w hh
  | write buf w hh =>
      unfold bufferSizeInv at h ⊢
      simp only [applySurfOp, FrameBuffer.update]
      by_cases hdim : fb.width ≠ w ∨ fb.height ≠ hh
      · simp only [hdim, if_true]
        split
        · simp [FrameBuffer.resize, List.length_take, List.length_drop]
          omega
        · simpa [FrameBuffer.resize, List.length_take] using length_resize fb w hh
      · simp only [hdim, if_false]
        push_neg at hdim
        obtain ⟨hw, hhh⟩ := hdim
        subst hw
        subst hhh
        split
        · simp only [List.length_append, List.length_take, List.length_drop]
          omega
        · omega

theorem bufferSizeInv_runSurfOps (fb : FrameBuffer) (ops : List SurfOp)
    (h : bufferSizeInv fb) : bufferSizeInv (runSurfOps fb ops) := by
  induction ops generalizing fb with
  | nil => simpa [runSurfOps] using h
  | cons op rest ih =>
      simpa [runSurfOps] using ih (applySurfOp fb op) (bufferSizeInv_applySurfOp fb op h)

/-- C4: the buffer length equals `width * height * 4` at construction and
after any sequence of resize and write operations, and each single resize
or write (including rejected writes) preserves the invariant. -/
theorem buffer_size_invariant :
    (∀ w h ops, bufferSizeInv (runSurfOps (FrameBuffer.new w h) ops)) ∧
    (∀ fb op, bufferSizeInv fb → bufferSizeInv (applySurfOp fb op)) := by
  constructor
  · intro w h ops
    apply bufferSizeInv_runSurfOps
    simp [bufferSizeInv, FrameBuffer.new]
  · exact bufferSizeInv_applySurfOp

/-- Witness for C4 at a concrete buffer and a rejected undersized write. -/
theorem buffer_size_invariant_witness :
    bufferSizeInv (runSurfOps (FrameBuffer.new 1 1) [SurfOp.resize 2 2]) ∧
    bufferSizeInv (applySurfOp (FrameBuffer.new 1 1) (SurfOp.write [] 2 2)) :=
  ⟨buffer_size_invariant.1 1 1 [SurfOp.resize 2 2],
   buffer_size_invariant.2 (FrameBuffer.new 1 1) (SurfOp.write [] 2 2) (by decide)⟩

/-- C1 counterexample: an undersized write whose declared dimensions differ
from the current ones changes the width, height, buffer and dirty flag. -/
theorem update_undersized_not_unchanged :
    ([] : List Nat).length < 2 * 2 * 4 ∧
    ¬(((FrameBuffer.new 1 1).update [] 2 2).data = (FrameBuffer.new 1 1).data ∧
      ((FrameBuffer.new 1 1).update [] 2 2).width = (FrameBuffer.new 1 1).width ∧
      ((FrameBuffer.new 1 1).update [] 2 2).height = (FrameBuffer.new 1 1).height ∧
      ((FrameBuffer.new 1 1).update [] 2 2).dirty = (FrameBuffer.new 1 1).dirty) := by
  decide

/-- C1 (amended): a write with fewer than `w*h*4` bytes copies nothing:
when the declared dimensions equal the current ones the surface is left
completely unchanged, but when they differ the surface is first resized
to `w × h` (dimensions, buffer length and dirty flag all change exactly
as by `resize`) and only the payload copy is rejected. -/
theorem update_undersized_behavior (fb : FrameBuffer) (buf : List Nat) (w h : Nat)
    (hlen : buf.length < w * h * 4) :
    (fb.width = w ∧ fb.height = h → fb.update buf w h = fb) ∧
    (¬(fb.width = w ∧ fb.height = h) → fb.update buf w h = fb.resize w h) := by
  constructor
  · rintro ⟨hw, hh⟩
    simp only [FrameBuffer.update, hw, hh]
    simp only [ne_eq, not_true_eq_false, false_or, if_false, or_self]
    rw [if_neg (by omega)]
  · intro hne
    have hcond : fb.width ≠ w ∨ fb.height ≠ h := by
      by_cases h1 : fb.width = w
      · right; intro h2; exact hne ⟨h1, h2⟩
      · left; exact h1
    simp only [FrameBuffer.update, if_pos hcond]
    rw [if_neg (by omega)]

/-- Witness for C1 (amended): a 4-byte surface rejects an empty write at
its own dimensions and is unchanged. -/
theorem update_undersized_behavior_witness :
    ([] : List Nat).length < 1 * 1 * 4 ∧
    (FrameBuffer.new 1 1).update [] 1 1 = FrameBuffer.new 1 1 :=
  ⟨by decide,
   (update_undersized_behavior (FrameBuffer.new 1 1) [] 1 1 (by decide)).1 ⟨rfl, rfl⟩⟩

/-- C3: `takeIfDirty` returns the current pixels exactly when the dirty
flag is set and clears the flag in the same step, leaving the pixels and
dimensions alone; a second call with no intervening write or resize
returns nothing.  `getFrame` wraps this verbatim into FrameData. -/
theorem take_if_dirty_semantics :
    (∀ fb : FrameBuffer,
      fb.takeIfDirty =
        ((if fb.dirty then some (fb.data, fb.width, fb.height) else none),
         { fb with dirty := false }) ∧
      ((fb.takeIfDirty).2.takeIfDirty).1 = none) ∧
    (∀ inst : OsrBrowserInstance,
      (inst.getFrame).1 =
        (if inst.frameBuffer.dirty then
          some { browserId := inst.id
                 width := inst.frameBuffer.width
                 height := inst.frameBuffer.height
                 format := "BGRA8"
                 data := inst.frameBuffer.data }
         else none) ∧
      (((inst.getFrame).2).getFrame).1 = none) := by
  constructor
  · intro fb
    obtain ⟨data, width, height, dirty⟩ := fb
    cases dirty <;> simp [FrameBuffer.takeIfDirty]
  · intro inst
    obtain ⟨id, url, bounds, fb, loading, focused⟩ := inst
    obtain ⟨data, width, height, dirty⟩ := fb
    cases dirty <;>
      simp [OsrBrowserInstance.getFrame, FrameBuffer.takeIfDirty]

/-- C6 counterexample: resizing a surface whose buffer holds `[1,2,3,4]`
to 2×1 keeps the old prefix and only pads with zeros; the result is not
the all-zero buffer the claim requires. -/
theorem resize_not_zero_fill :
    (((FrameBuffer.new 1 1).update [1, 2, 3, 4] 1 1).resize 2 1).data =
      [1, 2, 3, 4, 0, 0, 0, 0] ∧
    (((FrameBuffer.new 1 1).update [1, 2, 3, 4] 1 1).resize 2 1).data ≠
      List.replicate (2 * 1 * 4) 0 := by
  decide

/-- C6 (amended): `resize(w,h)` sets the dimensions, reallocates to
exactly `w*h*4` bytes and sets dirty, but does not zero-fill: bytes
retained from the previous buffer keep their old values and only the
newly appended tail is zero. -/
theorem resize_behavior (fb : FrameBuffer) (w h : Nat) :
    (fb.resize w h).width = w ∧ (fb.resize w h).height = h ∧
    (fb.resize w h).dirty = true ∧
    (fb.resize w h).data.length = w * h * 4 ∧
    ∀ i, (fb.resize w h).data[i]? =
      if i < min (w * h * 4) fb.data.length then fb.data[i]?
      else if i < w * h * 4 then some 0 else none := by
  refine ⟨rfl, rfl, rfl, length_resize fb w h, ?_⟩
  intro i
  simp only [FrameBuffer.resize]
  rw [List.getElem?_append]
  by_cases h1 : i < min (w * h * 4) fb.data.length
  · rw [if_pos (by simpa [List.length_take] using h1), if_pos h1]
    exact List.getElem?_take_of_lt (by omega)
  · rw [if_neg (by simpa [List.length_take] using h1), if_neg h1]
    rw [List.getElem?_replicate]
    simp only [List.length_take]
    by_cases h2 : i < w * h * 4
    · rw [if_pos (by omega), if_pos h2]
    · rw [if_neg (by omega), if_neg h2]

/-- A degenerate (pointless) rectangle positioned away from the origin. -/
def rectEmpty : DirtyRect := { x := 10, y := 10, width := 0, height := 0 }

/-- The unit rectangle at the origin. -/
def rectUnit : DirtyRect := { x := 0, y := 0, width := 1, height := 1 }

/-- C8 counterexample: merging a degenerate rectangle at (10,10) with the
unit rectangle yields a 10×10 box, yet the unit rectangle alone already
contains every point of both inputs, so the merge is not the smallest
rectangle containing every point of both. -/
theorem merge_not_smallest_cover :
    ¬ IsSmallestCover (rectEmpty.merge rectUnit) rectEmpty rectUnit := by
  intro hsc
  have hcovA : coversPointsOf rectUnit rectEmpty := by
    intro px py hp
    exact absurd hp (by simp only [rectEmpty, DirtyRect.containsPoint]; omega)
  have hcovB : coversPointsOf rectUnit rectUnit := fun _ _ hp => hp
  have h5 : (rectEmpty.merge rectUnit).containsPoint 5 5 := by decide
  exact absurd (hsc.2.2 rectUnit hcovA hcovB 5 5 h5) (by decide)

/-- C8 (amended): the merge of the documented example is `{0,0,150,150}`;
for all rectangles the merge contains every point of both inputs; and for
rectangles of positive width and height it is the smallest rectangle
containing every point of both (minimality can fail when a degenerate
input's position stretches the bounding box). -/
theorem merge_bounding_box :
    DirtyRect.merge { x := 0, y := 0, width := 100, height := 100 }
        { x := 50, y := 50, width := 100, height := 100 } =
      { x := 0, y := 0, width := 150, height := 150 } ∧
    (∀ (a b : DirtyRect) (px py : Nat),
      a.containsPoint px py ∨ b.containsPoint px py →
      (a.merge b).containsPoint px py) ∧
    (∀ a b : DirtyRect, 0 < a.width → 0 < a.height → 0 < b.width → 0 < b.height →
      IsSmallestCover (a.merge b) a b) := by
  refine ⟨by decide, ?_, ?_⟩
  · intro a b px py hp
    simp only [DirtyRect.containsPoint, DirtyRect.merge] at hp ⊢
    omega
  · intro a b haw hah hbw hbh
    refine ⟨?_, ?_, ?_⟩
    · intro px py hp
      simp only [DirtyRect.containsPoint, DirtyRect.merge] at hp ⊢
      omega
    · intro px py hp
      simp only [DirtyRect.containsPoint, DirtyRect.merge] at hp ⊢
      omega
    · intro c hca hcb px py hp
      have h1 := hca a.x a.y (by simp only [DirtyRect.containsPoint]; omega)
      have h2 := hca (a.x + a.width - 1) (a.y + a.height - 1)
        (by simp only [DirtyRect.containsPoint]; omega)
      have h3 := hcb b.x b.y (by simp only [DirtyRect.containsPoint]; omega)
      have h4 := hcb (b.x + b.width - 1) (b.y + b.height - 1)
        (by simp only [DirtyRect.containsPoint]; omega)
      simp only [DirtyRect.containsPoint, DirtyRect.merge] at h1 h2 h3 h4 hp ⊢
      omega

/-- Witness for C8 (amended) at concrete rectangles. -/
theorem merge_bounding_box_witness :
    (DirtyRect.merge { x := 0, y := 0, width := 100, height := 100 }
        { x := 50, y := 50, width := 100, height := 100 }).containsPoint 120 120 ∧
    IsSmallestCover (rectUnit.merge { x := 2, y := 2, width := 3, height := 3 })
      rectUnit { x := 2, y := 2, width := 3, height := 3 } :=
  ⟨merge_bounding_box.2.1 _ _ 120 120 (Or.inr (by decide)),
   merge_bounding_box.2.2 rectUnit { x := 2, y := 2, width := 3, height := 3 }
     (by decide) (by decide) (by decide) (by decide)⟩

/-- C5: creating an instance, or updating its bounds, with width or height
below the 100 minimum succeeds, and the surface ends up with effective
dimensions `max(w,100) × max(h,100)`. -/
theorem clamp_small_bounds (b : CefBounds) (hb : b.width < 100 ∨ b.height < 100) :
    (∀ id url,
      (OsrBrowserInstance.new id url b).map
          (fun i => (i.frameBuffer.width, i.frameBuffer.height)) =
        Except.ok ((max b.width 100).toNat, (max b.height 100).toNat)) ∧
    (∀ inst : OsrBrowserInstance,
      (inst.updateBounds b).map
          (fun i => (i.frameBuffer.width, i.frameBuffer.height)) =
        Except.ok ((max b.width 100).toNat, (max b.height 100).toNat)) := by
  constructor
  · intro id url
    simp [OsrBrowserInstance.new, Except.map,
      OsrBrowserInstance.generatePlaceholderFrame, FrameBuffer.resize]
  · intro inst
    simp [OsrBrowserInstance.updateBounds, Except.map,
      OsrBrowserInstance.generatePlaceholderFrame, FrameBuffer.resize]

/-- Witness for C5 at 50×50 requested bounds. -/
theorem clamp_small_bounds_witness :
    ((50 : Int) < 100 ∨ (50 : Int) < 100) ∧
    (OsrBrowserInstance.new "a" "u" { x := 0, y := 0, width := 50, height := 50 }).map
        (fun i => (i.frameBuffer.width, i.frameBuffer.height)) =
      Except.ok ((max (50 : Int) 100).toNat, (max (50 : Int) 100).toNat) :=
  ⟨Or.inl (by decide),
   (clamp_small_bounds { x := 0, y := 0, width := 50, height := 50 }
      (Or.inl (by decide))).1 "a" "u"⟩

/-- C10: creating or resizing with a dimension below 100 (possibly
negative) stores the caller-supplied bounds unmodified in the metadata
reported by `getInfo`, while the surface dimensions are clamped to at
least 100, so the reported bounds disagree with the surface dimensions. -/
theorem unclamped_bounds_metadata (b : CefBounds) (hb : b.width < 100 ∨ b.height < 100) :
    (∀ id url,
      (OsrBrowserInstance.new id url b).map (fun i => i.getInfo) =
        Except.ok { id := id, url := url, bounds := b, isLoading := true } ∧
      (OsrBrowserInstance.new id url b).map
          (fun i => (i.frameBuffer.width, i.frameBuffer.height)) =
        Except.ok ((max b.width 100).toNat, (max b.height 100).toNat)) ∧
    (∀ inst : OsrBrowserInstance,
      (inst.updateBounds b).map (fun i => i.getInfo.bounds) = Except.ok b ∧
      (inst.updateBounds b).map
          (fun i => (i.frameBuffer.width, i.frameBuffer.height)) =
        Except.ok ((max b.width 100).toNat, (max b.height 100).toNat)) ∧
    100 ≤ (max b.width 100).toNat ∧ 100 ≤ (max b.height 100).toNat ∧
    (b.width < 100 → ((max b.width 100).toNat : Int) ≠ b.width) ∧
    (b.height < 100 → ((max b.height 100).toNat : Int) ≠ b.height) := by
  refine ⟨?_, ?_, by omega, by omega, by omega, by omega⟩
  · intro id url
    constructor
    · simp [OsrBrowserInstance.new, Except.map,
        OsrBrowserInstance.generatePlaceholderFrame, OsrBrowserInstance.getInfo]
    · simp [OsrBrowserInstance.new, Except.map,
        OsrBrowserInstance.generatePlaceholderFrame, FrameBuffer.resize]
  · intro inst
    constructor
    · simp [OsrBrowserInstance.updateBounds, Except.map,
        OsrBrowserInstance.generatePlaceholderFrame, OsrBrowserInstance.getInfo]
    · simp [OsrBrowserInstance.updateBounds, Except.map,
        OsrBrowserInstance.generatePlaceholderFrame, FrameBuffer.resize]

/-- Witness for C10 at 50×50 requested bounds. -/
theorem unclamped_bounds_metadata_witness :
    (OsrBrowserInstance.new "a" "u" { x := 0, y := 0, width := 50, height := 50 }).map
        (fun i => i.getInfo) =
      Except.ok { id := "a", url := "u",
                  bounds := { x := 0, y := 0, width := 50, height := 50 },
                  isLoading := true } ∧
    ((max (50 : Int) 100).toNat : Int) ≠ (50 : Int) :=
  ⟨((unclamped_bounds_metadata { x := 0, y := 0, width := 50, height := 50 }
      (Or.inl (by decide))).1 "a" "u").1,
   (unclamped_bounds_metadata { x := 0, y := 0, width := 50, height := 50 }
      (Or.inl (by decide))).2.2.2.2.1 (by decide)⟩

theorem findInst_isSome (m : Registry) (id : String) :
    (findInst m id).isSome = containsId m id := by
  unfold findInst containsId
  rw [Option.isSome_map']
  induction m with
  | nil => rfl
  | cons e t ih =>
      cases h : (e.1 == id)
      · simp [h, ih]
      · simp [h]

theorem findInst_eq_none (m : Registry) (id : String) (h : containsId m id = false) :
    findInst m id = none := by
  cases hf : findInst m id with
  | none => rfl
  | some inst =>
      have := findInst_isSome m id
      rw [hf, h] at this
      cases this

theorem keys_map_fst (m : Registry)
    (g : String × OsrBrowserInstance → String × OsrBrowserInstance)
    (hg : ∀ e, (g e).1 = e.1) : (m.map g).map Prod.fst = m.map Prod.fst := by
  induction m with
  | nil => rfl
  | cons e t ih => simp [hg, ih]

theorem containsId_map (m : Registry)
    (g : String × OsrBrowserInstance → String × OsrBrowserInstance)
    (hg : ∀ e, (g e).1 = e.1) (id : String) :
    containsId (m.map g) id = containsId m id := by
  unfold containsId
  rw [List.any_map]
  induction m with
  | nil => rfl
  | cons e t ih => simp [List.any_cons, hg, ih, Function.comp]

theorem sweep_fst (id : String) :
    ∀ e : String × OsrBrowserInstance,
      ((fun e => if e.1 = id then e else (e.1, e.2.setFocus false)) e).1 = e.1 := by
  intro e
  by_cases he : e.1 = id <;> simp [he]

theorem updateEntry_fst (id : String) (f : OsrBrowserInstance → OsrBrowserInstance) :
    ∀ e : String × OsrBrowserInstance,
      ((fun e => if e.1 = id then (e.1, f e.2) else e) e).1 = e.1 := by
  intro e
  by_cases he : e.1 = id <;> simp [he]

theorem containsId_updateEntry (m : Registry) (tid id : String)
    (f : OsrBrowserInstance → OsrBrowserInstance) :
    containsId (updateEntry m tid f) id = containsId m id := by
  unfold updateEntry
  exact containsId_map m _ (updateEntry_fst tid f) id

theorem containsId_filter (m : Registry) (q : String × OsrBrowserInstance → Bool)
    (id : String) (h : containsId m id = false) :
    containsId (m.filter q) id = false := by
  unfold containsId at *
  induction m with
  | nil => rfl
  | cons e t ih =>
      rw [List.any_cons] at h
      have he : (e.1 == id) = false := by
        cases hh : (e.1 == id)
        · rfl
        · rw [hh] at h; cases h
      have ht : t.any (fun e => e.1 == id) = false := by
        rw [he] at h; simpa using h
      rw [List.filter_cons]
      cases hq : q e
      · simpa using ih ht
      · rw [if_pos rfl, List.any_cons, he]
        simpa using ih ht

theorem containsId_filter_self (m : Registry) (id : String) :
    containsId (m.filter (fun e => !(e.1 == id))) id = false := by
  unfold containsId
  induction m with
  | nil => rfl
  | cons e t ih =>
      rw [List.filter_cons]
      cases h : (e.1 == id)
      · simpa [List.any_cons, h] using ih
      · simpa using ih

theorem containsId_focusBrowser (m : Registry) (i j : String) :
    containsId (BrowserManager.focusBrowser m i).2 j = containsId m j := by
  simp only [BrowserManager.focusBrowser]
  cases hf : findInst (m.map fun e => if e.1 = i then e else (e.1, e.2.setFocus false)) i <;>
    simp only [hf]
  · exact containsId_map m _ (sweep_fst i) j
  · rw [containsId_updateEntry]
    exact containsId_map m _ (sweep_fst i) j

theorem containsId_stepCmd (m : Registry) (c : Cmd) (id : String)
    (h : containsId m id = false) : containsId (stepCmd m c).2 id = false := by
  cases c with
  | updateBounds cid b =>
      simp only [stepCmd, BrowserManager.updateBounds]
      cases hf : findInst m cid with
      | none => simpa using h
      | some inst =>
          simpa [OsrBrowserInstance.updateBounds, containsId_updateEntry] using h
  | navigate cid url =>
      simp only [stepCmd, BrowserManager.navigate]
      cases hf : findInst m cid with
      | none => simpa using h
      | some inst => simpa [OsrBrowserInstance.navigate] using h
  | sendMouseEvent cid e =>
      simp only [stepCmd, BrowserManager.sendMouseEvent]
      cases hf : findInst m cid with
      | none => simpa using h
      | some inst => simpa [OsrBrowserInstance.sendMouseEvent] using h
  | sendKeyEvent cid e =>
      simp only [stepCmd, BrowserManager.sendKeyEvent]
      cases hf : findInst m cid with
      | none => simpa using h
      | some inst => simpa [OsrBrowserInstance.sendKeyEvent] using h
  | focus cid =>
      simpa [stepCmd, containsId_focusBrowser] using h
  | close cid =>
      simp only [stepCmd, BrowserManager.closeBrowser]
      cases hf : findInst m cid with
      | none => simpa using h
      | some inst =>
          simpa [OsrBrowserInstance.close] using containsId_filter m _ id h

theorem containsId_runCmds (m : Registry) (cs : List Cmd) (id : String)
    (h : containsId m id = false) : containsId (runCmds m cs) id = false := by
  induction cs generalizing m with
  | nil => simpa [runCmds] using h
  | cons c rest ih =>
      simpa [runCmds] using ih (stepCmd m c).2 (containsId_stepCmd m c id h)

theorem stepCmd_absent_notFound (m : Registry) (c : Cmd)
    (h : containsId m c.target = false) :
    (stepCmd m c).1 = Except.error (BrowserError.notFound c.target) := by
  cases c with
  | updateBounds cid b =>
      simp [stepCmd, Cmd.target, BrowserManager.updateBounds,
        findInst_eq_none m cid (by simpa [Cmd.target] using h)]
  | navigate cid url =>
      simp [stepCmd, Cmd.target, BrowserManager.navigate,
        findInst_eq_none m cid (by simpa [Cmd.target] using h)]
  | sendMouseEvent cid e =>
      simp [stepCmd, Cmd.target, BrowserManager.sendMouseEvent,
        findInst_eq_none m cid (by simpa [Cmd.target] using h)]
  | sendKeyEvent cid e =>
      simp [stepCmd, Cmd.target, BrowserManager.sendKeyEvent,
        findInst_eq_none m cid (by simpa [Cmd.target] using h)]
  | focus cid =>
      have h1 : containsId (m.map fun e => if e.1 = cid then e else (e.1, e.2.setFocus false))
          cid = false := by
        rw [containsId_map m _ (sweep_fst cid)]
        simpa [Cmd.target] using h
      simp [stepCmd, Cmd.target, BrowserManager.focusBrowser, findInst_eq_none _ cid h1]
  | close cid =>
      simp [stepCmd, Cmd.target, BrowserManager.closeBrowser,
        findInst_eq_none m cid (by simpa [Cmd.target] using h)]

theorem closeBrowser_ok_absent (m : Registry) (id : String)
    (hok : (BrowserManager.closeBrowser m id).1 = Except.ok ()) :
    containsId (BrowserManager.closeBrowser m id).2 id = false := by
  unfold BrowserManager.closeBrowser at *
  cases hf : findInst m id with
  | none => rw [hf] at hok; cases hok
  | some inst =>
      simp only [hf, OsrBrowserInstance.close]
      exact containsId_filter_self m id

/-- C7: creating an id already present yields AlreadyExists and leaves the
registry unchanged; closing an id that was never created yields NotFound;
and once `close(id)` has returned ok, every subsequent registry operation
referencing that id (updateBounds, navigate, sendMouseEvent, sendKeyEvent,
focus, close), after any further sequence of such operations, yields
NotFound. -/
theorem lifecycle (m : Registry) (id : String) :
    (∀ url bounds, containsId m id = true →
      BrowserManager.createBrowser m id url bounds =
        (Except.error (BrowserError.alreadyExists id), m)) ∧
    (containsId m id = false →
      BrowserManager.closeBrowser m id = (Except.error (BrowserError.notFound id), m)) ∧
    ((BrowserManager.closeBrowser m id).1 = Except.ok () →
      ∀ cs c, Cmd.target c = id →
        (stepCmd (runCmds (BrowserManager.closeBrowser m id).2 cs) c).1 =
          Except.error (BrowserError.notFound id)) := by
  refine ⟨?_, ?_, ?_⟩
  · intro url bounds h
    simp [BrowserManager.createBrowser, h]
  · intro h
    simp [BrowserManager.closeBrowser, findInst_eq_none m id h]
  · intro hok cs c hc
    have h1 := closeBrowser_ok_absent m id hok
    have h2 := containsId_runCmds (BrowserManager.closeBrowser m id).2 cs id h1
    have h3 := stepCmd_absent_notFound (runCmds (BrowserManager.closeBrowser m id).2 cs) c
      (by rw [hc]; exact h2)
    rw [hc] at h3
    exact h3

/-- Witness for C7: duplicate create on a one-entry registry, and a
navigate after a successful close, at concrete inputs. -/
theorem lifecycle_witness :
    containsId regA "a" = true ∧
    BrowserManager.createBrowser regA "a" "u" { x := 0, y := 0, width := 100, height := 100 } =
      (Except.error (BrowserError.alreadyExists "a"), regA) ∧
    (BrowserManager.closeBrowser regA "a").1 = Except.ok () ∧
    (stepCmd (runCmds (BrowserManager.closeBrowser regA "a").2 []) (Cmd.navigate "a" "u")).1 =
      Except.error (BrowserError.notFound "a") ∧
    containsId ([] : Registry) "b" = false ∧
    BrowserManager.closeBrowser ([] : Registry) "b" =
      (Except.error (BrowserError.notFound "b"), ([] : Registry)) :=
  ⟨rfl,
   (lifecycle regA "a").1 "u" { x := 0, y := 0, width := 100, height := 100 } rfl,
   rfl,
   (lifecycle regA "a").2.2 rfl [] (Cmd.navigate "a" "u") rfl,
   rfl,
   (lifecycle ([] : Registry) "b").2.1 rfl⟩

/-- C9: `focus(id)` with an id not in the registry returns NotFound but
first sets `isFocused := false` on every existing instance, so after the
failed call no instance is focused. -/
theorem focus_missing_clears_all (m : Registry) (id : String)
    (h : containsId m id = false) :
    BrowserManager.focusBrowser m id =
      (Except.error (BrowserError.notFound id),
       m.map (fun e => (e.1, e.2.setFocus false))) := by
  simp only [BrowserManager.focusBrowser]
  have h1 : containsId (m.map fun e => if e.1 = id then e else (e.1, e.2.setFocus false))
      id = false := by
    rw [containsId_map m _ (sweep_fst id)]
    exact h
  simp only [findInst_eq_none _ id h1]
  have hmem : ∀ e ∈ m, ¬((fun e : String × OsrBrowserInstance => e.1 == id) e = true) := by
    rw [← List.any_eq_false]
    exact h
  congr 1
  apply List.map_congr_left
  intro e he
  have : e.1 ≠ id := by
    intro hee
    exact hmem e he (by simp [hee])
  simp [this]

/-- Witness for C9: focusing an unknown id on the one-entry registry. -/
theorem focus_missing_clears_all_witness :
    containsId regA "b" = false ∧
    BrowserManager.focusBrowser regA "b" =
      (Except.error (BrowserError.notFound "b"),
       regA.map (fun e => (e.1, e.2.setFocus false))) :=
  ⟨rfl, focus_missing_clears_all regA "b" rfl⟩

/-- C2 counterexample: with a registry holding one instance, the sequence
focus("a"), focus("b") (where "b" is not in the registry) ends with zero
focused instances after the second call completes, not exactly one. -/
theorem focus_sequence_zero_focused :
    (runFocusSeq regA ["a"]).length = 1 ∧
    countFocused (runFocusSeq regA ["a"]) = 1 ∧
    (runFocusSeq regA ["a", "b"]).length = 1 ∧
    countFocused (runFocusSeq regA ["a", "b"]) = 0 := by
  decide

theorem focusBrowser_mem (m : Registry) (i : String)
    (hc : containsId m i = true) :
    ∀ e ∈ (BrowserManager.focusBrowser m i).2, e.2.isFocused = (e.1 == i) := by
  simp only [BrowserManager.focusBrowser]
  have h1 : containsId (m.map fun e => if e.1 = i then e else (e.1, e.2.setFocus false)) i
      = true := by
    rw [containsId_map m _ (sweep_fst i)]
    exact hc
  have h2 : (findInst (m.map fun e => if e.1 = i then e else (e.1, e.2.setFocus false))
      i).isSome = true := by
    rw [findInst_isSome]
    exact h1
  cases hf : findInst (m.map fun e => if e.1 = i then e else (e.1, e.2.setFocus false)) i with
  | none => rw [hf] at h2; cases h2
  | some inst =>
      simp only [hf]
      intro e he
      simp only [updateEntry, List.map_map] at he
      obtain ⟨e0, he0, rfl⟩ := List.mem_map.mp he
      by_cases h0 : e0.1 = i
      · simp [Function.comp, h0, OsrBrowserInstance.setFocus]
      · simp [Function.comp, h0, OsrBrowserInstance.setFocus]

theorem focusBrowser_keys (m : Registry) (i : String) :
    ((BrowserManager.focusBrowser m i).2).map Prod.fst = m.map Prod.fst := by
  simp only [BrowserManager.focusBrowser]
  cases hf : findInst (m.map fun e => if e.1 = i then e else (e.1, e.2.setFocus false)) i <;>
    simp only [hf]
  · exact keys_map_fst m _ (sweep_fst i)
  · simp only [updateEntry]
    rw [keys_map_fst _ (fun e => if e.1 = i then (e.1, e.2.setFocus true) else e)
        (updateEntry_fst i (fun b => b.setFocus true))]
    exact keys_map_fst m _ (sweep_fst i)

theorem runFocusSeq_keys (m : Registry) (ids : List String) :
    (runFocusSeq m ids).map Prod.fst = m.map Prod.fst := by
  induction ids generalizing m with
  | nil => rfl
  | cons i rest ih =>
      calc (runFocusSeq m (i :: rest)).map Prod.fst
          = (runFocusSeq (BrowserManager.focusBrowser m i).2 rest).map Prod.fst := rfl
        _ = ((BrowserManager.focusBrowser m i).2).map Prod.fst := ih _
        _ = m.map Prod.fst := focusBrowser_keys m i

theorem containsId_runFocusSeq (m : Registry) (ids : List String) (j : String) :
    containsId (runFocusSeq m ids) j = containsId m j := by
  have h1 : ∀ l : Registry, containsId l j = (l.map Prod.fst).any (fun k => k == j) := by
    intro l
    unfold containsId
    induction l with
    | nil => rfl
    | cons e t ih => simp [List.any_cons, ih]
  rw [h1, h1, runFocusSeq_keys]

theorem countP_beq_one (l : List String) (i : String) (hnd : l.Nodup) (hm : i ∈ l) :
    l.countP (fun k => k == i) = 1 := by
  induction l with
  | nil => cases hm
  | cons a t ih =>
      rw [List.countP_cons]
      rcases List.mem_cons.mp hm with rfl | hmt
      · have hnt : i ∉ t := (List.nodup_cons.mp hnd).1
        have h0 : t.countP (fun k => k == i) = 0 := by
          rw [List.countP_eq_zero]
          intro b hb
          simp only [beq_iff_eq]
          intro hbi
          exact hnt (hbi ▸ hb)
        simp [h0]
      · have hna : a ∉ t := (List.nodup_cons.mp hnd).1
        have hai : (a == i) = false := by
          simp only [beq_eq_false_iff_ne, ne_eq]
          intro hh
          exact hna (hh ▸ hmt)
        simp [hai, ih (List.nodup_cons.mp hnd).2 hmt]

theorem mem_keys_of_containsId (m : Registry) (i : String) (h : containsId m i = true) :
    i ∈ m.map Prod.fst := by
  unfold containsId at h
  obtain ⟨x, hx, hbeq⟩ := List.any_eq_true.mp h
  have hxi : x.1 = i := by simpa using hbeq
  exact hxi ▸ List.mem_map_of_mem Prod.fst hx

/-- C2 (amended): after each `focus(id)` call whose id is present in the
registry (keys unique), exactly one instance has `isFocused = true` —
namely the id just focused — whatever sequence of focus calls preceded
it.  (A focus call naming an unknown id instead leaves zero instances
focused; see the C9 theorem.) -/
theorem focus_exclusivity (m : Registry) (pre : List String) (i : String)
    (hnd : (m.map Prod.fst).Nodup) (hi : containsId m i = true) :
    countFocused (runFocusSeq m (pre ++ [i])) = 1 ∧
    ∀ e ∈ runFocusSeq m (pre ++ [i]), (e.2.isFocused = true ↔ e.1 = i) := by
  have hrun : runFocusSeq m (pre ++ [i])
      = (BrowserManager.focusBrowser (runFocusSeq m pre) i).2 := by
    unfold runFocusSeq
    rw [List.foldl_append]
    rfl
  have hc : containsId (runFocusSeq m pre) i = true := by
    rw [containsId_runFocusSeq]
    exact hi
  have hmemf := focusBrowser_mem (runFocusSeq m pre) i hc
  constructor
  · rw [hrun]
    unfold countFocused
    have hcongr : ((BrowserManager.focusBrowser (runFocusSeq m pre) i).2).countP
        (fun e => e.2.isFocused)
        = ((BrowserManager.focusBrowser (runFocusSeq m pre) i).2).countP
          (fun e => e.1 == i) :=
      List.countP_congr (fun e he => by rw [hmemf e he])
    rw [hcongr]
    have hkeys : ((BrowserManager.focusBrowser (runFocusSeq m pre) i).2).map Prod.fst
        = m.map Prod.fst := by
      rw [focusBrowser_keys, runFocusSeq_keys]
    have hmap : ((BrowserManager.focusBrowser (runFocusSeq m pre) i).2).countP
        (fun e => e.1 == i)
        = (m.map Prod.fst).countP (fun k => k == i) := by
      rw [← hkeys, List.countP_map]
      rfl
    rw [hmap]
    exact countP_beq_one _ i hnd (mem_keys_of_containsId m i hi)
  · rw [hrun]
    intro e he
    have heq := hmemf e he
    constructor
    · intro hf
      rw [hf] at heq
      simpa using heq.symm
    · intro hk
      rw [heq, hk]
      simp

/-- Witness for C2 (amended): one successful focus call on the one-entry
registry leaves exactly one instance focused. -/
theorem focus_exclusivity_witness :
    countFocused (runFocusSeq regA ([] ++ ["a"])) = 1 :=
  (focus_exclusivity regA [] "a" (by decide) (by decide)).1
